import Mathlib

set_option maxRecDepth 40000

/-!
Shallow embedding of the sasa-cam frontend core: the identity store and
session state machine of App.tsx, the CameraFeed capture and swap loop, and
the geminiService request builders.  Pure computations are translated as Lean
functions; the reactive component state is translated as an explicit state
record with a step function over user and completion events.  Timer ticks and
request completions are explicit events, so every interleaving of the loop is
a list of events.
-/

namespace SasaCam

/-- Embedding of the identity readiness union type from types.ts. -/
inductive EmbeddingStatus
  | ready
  | processing
  | error
deriving DecidableEq, Repr

/-- Embedding of the Identity record from types.ts. -/
structure Identity where
  id : String
  name : String
  imageUrl : String
  embeddingStatus : EmbeddingStatus
deriving DecidableEq, Repr

/-- Embedding of the CameraStatus enum from types.ts. -/
inductive CameraStatus
  | INACTIVE
  | LOADING
  | ACTIVE
  | SWAPPING
deriving DecidableEq, Repr

/-- JavaScript truthiness of an optional string value: null or undefined and
the empty string are falsy, every other string is truthy. -/
def truthyS : Option String → Bool
  | some s => !(s == "")
  | none => false

/-- The JavaScript idiom (o or-else undefined), written in the source as
swappedFrame || undefined at the performFaceSwap call site. -/
def jsOrUndefined (o : Option String) : Option String :=
  if truthyS o then o else none

/-- Character-level test that the second list begins with the first list. -/
def matchesAtStart : List Char → List Char → Bool
  | [], _ => true
  | _ :: _, [] => false
  | p :: ps, c :: cs => p == c && matchesAtStart ps cs

/-- The JavaScript call url.startsWith(p), evaluated on character data. -/
def jsStartsWith (s p : String) : Bool :=
  matchesAtStart p.data s.data

/-- The JavaScript call s.includes(c) for the comma character. -/
def includesComma (s : String) : Bool :=
  s.data.contains ','

/-- Helper for the JavaScript call s.split(c) at the comma character. -/
def splitCommaAux : List Char → List Char → List (List Char)
  | [], acc => [acc.reverse]
  | c :: cs, acc =>
    if c == ',' then acc.reverse :: splitCommaAux cs [] else splitCommaAux cs (c :: acc)

/-- The JavaScript call s.split(c) at the comma character. -/
def jsSplitComma (s : String) : List String :=
  (splitCommaAux s.data []).map (fun cs => String.mk cs)

/-- The data-URI envelope stripping idiom used for each payload in
performFaceSwap: x.includes(comma) ? x.split(comma)[1] : x. -/
def stripEnvelope (s : String) : String :=
  if includesComma s then (jsSplitComma s).getD 1 "" else s

/-- CameraFeed.urlToBase64: a resource that is already a data URI resolves to
itself unchanged; any other URL is drawn to a canvas and re-encoded as a JPEG
data URI.  The canvas re-encoding (together with the no-context and on-error
fallbacks of the source, which also resolve to some string) is abstracted as
the environment function canvasEncode. -/
def urlToBase64 (canvasEncode : String → String) (url : String) : String :=
  if jsStartsWith url "data:" then url else canvasEncode url

/-- One part of a generateContent request body in geminiService: either an
inline image payload with an explicit media-type tag, or a text block. -/
inductive Part
  | inlineData (data : String) (mimeType : String)
  | text (content : String)
deriving DecidableEq, Repr

/-- The instruction block built by performFaceSwap.  The template literal
interpolates two segments exactly when the cleaned previous frame is truthy. -/
def swapInstruction (hasAnchor : Bool) : String :=
  "ACTIVATE IDENTITY LOCK: \n      1. Image 1 is the CURRENT real-time webcam frame (Source).\n      2. Image 2 is the TARGET persona identity (Identity).\n      "
  ++ (if hasAnchor then "3. Image 3 is the PREVIOUS successful swap (Consistency Reference)." else "")
  ++ "\n      \n      TASK: Replace ONLY the face in Image 1 with the features of Image 2. \n      STRICT CONSTRAINTS:\n      - DO NOT change the background, hair, body, or clothing from Image 1.\n      - DO NOT change the lighting or head orientation from Image 1.\n      "
  ++ (if hasAnchor then "- Ensure the resulting face looks exactly like the face in Image 3 to maintain temporal consistency." else "")
  ++ "\n      - Output ONLY the modified Image 1."

/-- The parts list built by geminiService.performFaceSwap before the service
call: cleaned source, cleaned target, the cleaned previous frame pushed only
when truthy, then the instruction text whose content depends on the same
truthiness test. -/
def performFaceSwapParts (sourceBase64 targetBase64 : String)
    (previousResultBase64 : Option String) : List Part :=
  let cleanSource := stripEnvelope sourceBase64
  let cleanTarget := stripEnvelope targetBase64
  let cleanPrevious := previousResultBase64.map stripEnvelope
  let parts := [Part.inlineData cleanSource "image/jpeg",
                Part.inlineData cleanTarget "image/jpeg"]
  let parts := if truthyS cleanPrevious
    then parts ++ [Part.inlineData (cleanPrevious.getD "") "image/jpeg"]
    else parts
  parts ++ [Part.text (swapInstruction (truthyS cleanPrevious))]

/-- Modelled from the spec: the request framing rule of section 4.4 as the
spec words it — source part first, then target part, then an anchor part
exactly when the anchor argument is supplied, then the single instruction
block whose content varies only in whether an anchor is present. -/
def specRequestFraming (sourceBase64 targetBase64 : String)
    (previousResultBase64 : Option String) : List Part :=
  [Part.inlineData (stripEnvelope sourceBase64) "image/jpeg",
   Part.inlineData (stripEnvelope targetBase64) "image/jpeg"]
  ++ (match previousResultBase64 with
      | some p => [Part.inlineData (stripEnvelope p) "image/jpeg"]
      | none => [])
  ++ [Part.text (swapInstruction previousResultBase64.isSome)]

/-- The framing rule amended to the code: the anchor part is present exactly
when an anchor argument is supplied whose stripped payload is non-empty, and
the instruction block varies with that same condition. -/
def amendedRequestFraming (sourceBase64 targetBase64 : String)
    (previousResultBase64 : Option String) : List Part :=
  [Part.inlineData (stripEnvelope sourceBase64) "image/jpeg",
   Part.inlineData (stripEnvelope targetBase64) "image/jpeg"]
  ++ (if truthyS (previousResultBase64.map stripEnvelope)
      then [Part.inlineData ((previousResultBase64.map stripEnvelope).getD "") "image/jpeg"]
      else [])
  ++ [Part.text (swapInstruction (truthyS (previousResultBase64.map stripEnvelope)))]

/-- App.handleFileUpload after the file reader fires: append a fresh identity
with status processing, run refineIdentity, then mark the entry ready.  The
source discards the value returned by refineIdentity (which is null exactly
on refinement failure), so the refineOutcome argument is accepted here and
never read, mirroring the call await refineIdentity(...) whose result is
dropped. -/
def handleFileUploadResult (identities : List Identity)
    (newId nm base64Data : String) (refineOutcome : Option String) : List Identity :=
  let newIdentity : Identity :=
    { id := newId, name := nm, imageUrl := base64Data, embeddingStatus := .processing }
  let afterAdd := identities ++ [newIdentity]
  let _ := refineOutcome
  afterAdd.map (fun idty =>
    if idty.id = newIdentity.id then { idty with embeddingStatus := .ready } else idty)

/-- One dispatched swap request as handed to performFaceSwap by the loop:
the captured source frame, the resolved target payload, and the anchor
argument (swappedFrame or-else undefined). -/
structure SwapRequest where
  source : String
  target : String
  anchor : Option String
deriving DecidableEq, Repr

/-- The combined component state of App and CameraFeed that the claims are
about.  The fields inFlight and reqs are observers of the loop: inFlight
counts dispatched swap requests not yet completed, and reqs logs every
dispatched request in order. -/
structure Sys where
  identities : List Identity
  activeId : Option String
  cameraStatus : CameraStatus
  stream : Bool
  swappedFrame : Option String
  isProcessing : Bool
  identityBase64 : Option String
  inFlight : Nat
  reqs : List SwapRequest
deriving DecidableEq, Repr

/-- The prop activeIdentityUrl handed to CameraFeed: App computes
identities.find(i.id equals activeIdentityId) and passes its imageUrl. -/
def activeUrl (s : Sys) : Option String :=
  s.activeId.bind (fun a => (s.identities.find? (fun i => i.id == a)).map Identity.imageUrl)

/-- The events that drive the system: the two user toggles, identity-card
selection and deletion, a completed upload, a timer tick of the swap loop
(processFrame), and the completion of an in-flight swap request.  camOk is
the outcome of the asynchronous getUserMedia acquisition started by the
status change; refsOk is whether the video and canvas refs are mounted;
sourceBase64 is the JPEG data URI the canvas produces for the current frame;
result is the value performFaceSwap resolves with (null on failure). -/
inductive Event
  | toggleCamera (camOk : Bool)
  | toggleSwapButton (camOk : Bool)
  | selectIdentity (id : String)
  | removeIdentity (id : String)
  | upload (newId nm base64Data : String) (refineOutcome : Option String)
  | tick (sourceBase64 : String) (refsOk : Bool)
  | complete (result : Option String)
deriving DecidableEq, Repr

/-- The immediate handler of each event, before reactive effects re-run.
toggleCamera and toggleSwapButton are the App handlers; the button for the
persona toggle is disabled when the camera is INACTIVE or no identity is
selected, so the toggleSwapButton event carries that guard.  selectIdentity
events originate from a rendered IdentityCard, so their id is one of the
listed identities; that containment is the guard.  tick is CameraFeed
processFrame: it returns without dispatching when not SWAPPING, when the
target payload is not truthy, or when already busy; otherwise it sets the
busy flag and dispatches performFaceSwap(source, target, anchor or-else
undefined).  complete is the resolution of the awaited call: the result is
stored only when truthy, and the busy flag clears in the finally block. -/
def rawStep (e : Event) (s : Sys) : Sys :=
  match e with
  | .toggleCamera camOk =>
    let st := if s.cameraStatus = CameraStatus.INACTIVE then CameraStatus.ACTIVE
              else CameraStatus.INACTIVE
    let s1 := { s with cameraStatus := st }
    if st ≠ CameraStatus.INACTIVE ∧ camOk = true then { s1 with stream := true } else s1
  | .toggleSwapButton camOk =>
    if s.cameraStatus = CameraStatus.INACTIVE ∨ truthyS s.activeId = false then s
    else
      let st := if s.cameraStatus = CameraStatus.SWAPPING then CameraStatus.ACTIVE
                else CameraStatus.SWAPPING
      let s1 := { s with cameraStatus := st }
      if camOk = true then { s1 with stream := true } else s1
  | .selectIdentity id =>
    if s.identities.any (fun i => i.id == id) then
      { s with activeId := if s.activeId = some id then none else some id }
    else s
  | .removeIdentity id =>
    { s with identities := s.identities.filter (fun i => i.id != id),
             activeId := if s.activeId = some id then none else s.activeId }
  | .upload newId nm base64Data refineOutcome =>
    { s with identities := handleFileUploadResult s.identities newId nm base64Data refineOutcome }
  | .tick sourceBase64 refsOk =>
    if s.cameraStatus ≠ CameraStatus.SWAPPING ∨ truthyS s.identityBase64 = false
        ∨ s.isProcessing = true then s
    else if refsOk = false then s
    else
      { s with isProcessing := true,
               inFlight := s.inFlight + 1,
               reqs := s.reqs ++ [{ source := sourceBase64,
                                    target := s.identityBase64.getD "",
                                    anchor := jsOrUndefined s.swappedFrame }] }
  | .complete result =>
    if s.inFlight = 0 then s
    else
      { s with inFlight := s.inFlight - 1,
               isProcessing := false,
               swappedFrame := if truthyS result then result else s.swappedFrame }

/-- The CameraFeed effect keyed on activeIdentityUrl: a truthy url is
pre-processed through urlToBase64 into identityBase64; otherwise both the
target payload and the swapped frame are cleared. -/
def reactIdentity (env : String → String) (s : Sys) : Sys :=
  match activeUrl s with
  | some u =>
    if u = "" then { s with identityBase64 := none, swappedFrame := none }
    else { s with identityBase64 := some (urlToBase64 env u) }
  | none => { s with identityBase64 := none, swappedFrame := none }

/-- The CameraFeed effect keyed on status: on INACTIVE the stream tracks are
stopped, the stream handle and the swapped frame are cleared. -/
def reactStatus (s : Sys) : Sys :=
  if s.cameraStatus = CameraStatus.INACTIVE then { s with stream := false, swappedFrame := none }
  else s

/-- The else branch of the swap-loop effect: whenever the effect re-runs with
the session not SWAPPING or the target payload not truthy, the swapped frame
is cleared (the if branch only schedules processFrame runs, which appear as
tick events). -/
def reactSwapLoop (s : Sys) : Sys :=
  if s.cameraStatus = CameraStatus.SWAPPING ∧ truthyS s.identityBase64 = true then s
  else { s with swappedFrame := none }

/-- All reactive effects of CameraFeed applied after an event, in source
order.  The effects are conditioned only on current state and their clearing
writes are idempotent, so applying them after every event is the fixpoint the
component reaches before the next event. -/
def react (env : String → String) (s : Sys) : Sys :=
  reactSwapLoop (reactStatus (reactIdentity env s))

/-- One atomic step of the system: the event handler followed by the
reactive effects. -/
def step (env : String → String) (e : Event) (s : Sys) : Sys :=
  react env (rawStep e s)

/-- The INITIAL_IDENTITIES constant of App.tsx. -/
def INITIAL_IDENTITIES : List Identity :=
  [{ id := "1", name := "Executive Professional",
     imageUrl := "https://images.unsplash.com/photo-1560250097-0b93528c311a?auto=format&fit=crop&q=80&w=400&h=400",
     embeddingStatus := .ready },
   { id := "2", name := "Creative Director",
     imageUrl := "https://images.unsplash.com/photo-1573496359142-b8d87734a5a2?auto=format&fit=crop&q=80&w=400&h=400",
     embeddingStatus := .ready }]

/-- The mounted state of the application: the initial identities, nothing
selected, camera INACTIVE, no stream, no swapped frame, not busy, no target
payload, nothing in flight. -/
def initState : Sys :=
  { identities := INITIAL_IDENTITIES, activeId := none,
    cameraStatus := CameraStatus.INACTIVE, stream := false, swappedFrame := none,
    isProcessing := false, identityBase64 := none, inFlight := 0, reqs := [] }

/-- Run an event trace from the mounted state. -/
def run (env : String → String) (es : List Event) : Sys :=
  es.foldl (fun s e => step env e s) initState

/-! Field preservation facts about the reactive effects. -/

theorem activeUrl_eq_of (s t : Sys) (h1 : s.activeId = t.activeId)
    (h2 : s.identities = t.identities) : activeUrl s = activeUrl t := by
  unfold activeUrl
  rw [h1, h2]

theorem reactIdentity_activeId (env : String → String) (s : Sys) :
    (reactIdentity env s).activeId = s.activeId := by
  unfold reactIdentity
  split <;> first | rfl | (split <;> rfl)

theorem reactIdentity_identities (env : String → String) (s : Sys) :
    (reactIdentity env s).identities = s.identities := by
  unfold reactIdentity
  split <;> first | rfl | (split <;> rfl)

theorem reactIdentity_cameraStatus (env : String → String) (s : Sys) :
    (reactIdentity env s).cameraStatus = s.cameraStatus := by
  unfold reactIdentity
  split <;> first | rfl | (split <;> rfl)

theorem reactIdentity_isProcessing (env : String → String) (s : Sys) :
    (reactIdentity env s).isProcessing = s.isProcessing := by
  unfold reactIdentity
  split <;> first | rfl | (split <;> rfl)

theorem reactIdentity_inFlight (env : String → String) (s : Sys) :
    (reactIdentity env s).inFlight = s.inFlight := by
  unfold reactIdentity
  split <;> first | rfl | (split <;> rfl)

theorem reactIdentity_reqs (env : String → String) (s : Sys) :
    (reactIdentity env s).reqs = s.reqs := by
  unfold reactIdentity
  split <;> first | rfl | (split <;> rfl)

theorem reactStatus_activeId (s : Sys) : (reactStatus s).activeId = s.activeId := by
  unfold reactStatus
  split <;> rfl

theorem reactStatus_identities (s : Sys) : (reactStatus s).identities = s.identities := by
  unfold reactStatus
  split <;> rfl

theorem reactStatus_cameraStatus (s : Sys) : (reactStatus s).cameraStatus = s.cameraStatus := by
  unfold reactStatus
  split <;> rfl

theorem reactStatus_isProcessing (s : Sys) : (reactStatus s).isProcessing = s.isProcessing := by
  unfold reactStatus
  split <;> rfl

theorem reactStatus_inFlight (s : Sys) : (reactStatus s).inFlight = s.inFlight := by
  unfold reactStatus
  split <;> rfl

theorem reactStatus_reqs (s : Sys) : (reactStatus s).reqs = s.reqs := by
  unfold reactStatus
  split <;> rfl

theorem reactStatus_identityBase64 (s : Sys) :
    (reactStatus s).identityBase64 = s.identityBase64 := by
  unfold reactStatus
  split <;> rfl

theorem reactSwapLoop_activeId (s : Sys) : (reactSwapLoop s).activeId = s.activeId := by
  unfold reactSwapLoop
  split <;> rfl

theorem reactSwapLoop_identities (s : Sys) : (reactSwapLoop s).identities = s.identities := by
  unfold reactSwapLoop
  split <;> rfl

theorem reactSwapLoop_cameraStatus (s : Sys) :
    (reactSwapLoop s).cameraStatus = s.cameraStatus := by
  unfold reactSwapLoop
  split <;> rfl

theorem reactSwapLoop_isProcessing (s : Sys) :
    (reactSwapLoop s).isProcessing = s.isProcessing := by
  unfold reactSwapLoop
  split <;> rfl

theorem reactSwapLoop_inFlight (s : Sys) : (reactSwapLoop s).inFlight = s.inFlight := by
  unfold reactSwapLoop
  split <;> rfl

theorem reactSwapLoop_reqs (s : Sys) : (reactSwapLoop s).reqs = s.reqs := by
  unfold reactSwapLoop
  split <;> rfl

theorem reactSwapLoop_identityBase64 (s : Sys) :
    (reactSwapLoop s).identityBase64 = s.identityBase64 := by
  unfold reactSwapLoop
  split <;> rfl

theorem react_activeId (env : String → String) (s : Sys) :
    (react env s).activeId = s.activeId := by
  unfold react
  rw [reactSwapLoop_activeId, reactStatus_activeId, reactIdentity_activeId]

theorem react_identities (env : String → String) (s : Sys) :
    (react env s).identities = s.identities := by
  unfold react
  rw [reactSwapLoop_identities, reactStatus_identities, reactIdentity_identities]

theorem react_cameraStatus (env : String → String) (s : Sys) :
    (react env s).cameraStatus = s.cameraStatus := by
  unfold react
  rw [reactSwapLoop_cameraStatus, reactStatus_cameraStatus, reactIdentity_cameraStatus]

theorem react_isProcessing (env : String → String) (s : Sys) :
    (react env s).isProcessing = s.isProcessing := by
  unfold react
  rw [reactSwapLoop_isProcessing, reactStatus_isProcessing, reactIdentity_isProcessing]

theorem react_inFlight (env : String → String) (s : Sys) :
    (react env s).inFlight = s.inFlight := by
  unfold react
  rw [reactSwapLoop_inFlight, reactStatus_inFlight, reactIdentity_inFlight]

theorem react_reqs (env : String → String) (s : Sys) :
    (react env s).reqs = s.reqs := by
  unfold react
  rw [reactSwapLoop_reqs, reactStatus_reqs, reactIdentity_reqs]

theorem react_activeUrl (env : String → String) (s : Sys) :
    activeUrl (react env s) = activeUrl s := by
  exact activeUrl_eq_of _ _ (react_activeId env s) (react_identities env s)

theorem reactSwapLoop_swappedFrame_some (s : Sys) (a : String)
    (h : (reactSwapLoop s).swappedFrame = some a) :
    s.cameraStatus = CameraStatus.SWAPPING ∧ s.swappedFrame = some a := by
  unfold reactSwapLoop at h
  by_cases hc : s.cameraStatus = CameraStatus.SWAPPING ∧ truthyS s.identityBase64 = true
  · rw [if_pos hc] at h
    exact ⟨hc.1, h⟩
  · rw [if_neg hc] at h
    simp at h

theorem reactStatus_swappedFrame_some (s : Sys) (a : String)
    (h : (reactStatus s).swappedFrame = some a) : s.swappedFrame = some a := by
  unfold reactStatus at h
  split at h
  · simp at h
  · exact h

theorem reactIdentity_swappedFrame_some (env : String → String) (s : Sys) (a : String)
    (h : (reactIdentity env s).swappedFrame = some a) : s.swappedFrame = some a := by
  unfold reactIdentity at h
  split at h
  · split at h
    · simp at h
    · exact h
  · simp at h

/-- If the reactive effects leave a swapped frame, the session is SWAPPING
and the frame was already there before the effects ran. -/
theorem react_swappedFrame_some (env : String → String) (s : Sys) (a : String)
    (h : (react env s).swappedFrame = some a) :
    (react env s).cameraStatus = CameraStatus.SWAPPING ∧ s.swappedFrame = some a := by
  unfold react at h ⊢
  have h1 := reactSwapLoop_swappedFrame_some _ _ h
  rw [reactSwapLoop_cameraStatus]
  exact ⟨h1.1, reactIdentity_swappedFrame_some _ _ _ (reactStatus_swappedFrame_some _ _ h1.2)⟩

/-! The inductive invariant of the system. -/

/-- The busy flag is the single-flight guard: the number of outstanding swap
requests is one exactly while the flag is set. -/
def flightInv (s : Sys) : Prop :=
  s.inFlight = (if s.isProcessing = true then 1 else 0)

/-- A held swapped frame implies the session is SWAPPING, and the frame is a
truthy string. -/
def anchorInv (s : Sys) : Prop :=
  ∀ a, s.swappedFrame = some a → s.cameraStatus = CameraStatus.SWAPPING ∧ a ≠ ""

/-- The LOADING member of the status enum is never assigned. -/
def statusInv (s : Sys) : Prop :=
  s.cameraStatus ≠ CameraStatus.LOADING

/-- The active selection always names a listed identity. -/
def activeInv (s : Sys) : Prop :=
  ∀ a, s.activeId = some a → a ∈ s.identities.map Identity.id

/-- The resolved target payload is the urlToBase64 image of the active
identity url when that url is truthy, and cleared otherwise. -/
def b64Inv (env : String → String) (s : Sys) : Prop :=
  s.identityBase64 = if truthyS (activeUrl s) = true
    then some (urlToBase64 env ((activeUrl s).getD "")) else none

def Inv (env : String → String) (s : Sys) : Prop :=
  flightInv s ∧ anchorInv s ∧ statusInv s ∧ activeInv s ∧ b64Inv env s

theorem b64Inv_react (env : String → String) (s : Sys) : b64Inv env (react env s) := by
  unfold b64Inv
  rw [react_activeUrl]
  unfold react
  rw [reactSwapLoop_identityBase64, reactStatus_identityBase64]
  unfold reactIdentity
  cases hu : activeUrl s with
  | none => simp [truthyS]
  | some u =>
    by_cases he : u = ""
    · simp [truthyS, he]
    · simp [truthyS, he]

theorem rawStep_flight (e : Event) (s : Sys) (h : flightInv s) : flightInv (rawStep e s) := by
  unfold flightInv at h ⊢
  cases e <;> unfold rawStep <;> dsimp only
  case toggleCamera =>
    repeat' split
    all_goals simp_all
  case toggleSwapButton =>
    repeat' split
    all_goals simp_all
  case selectIdentity =>
    repeat' split
    all_goals simp_all
  case removeIdentity => simpa using h
  case upload => simpa using h
  case tick =>
    split
    · exact h
    · split
      · exact h
      · rename_i hguard _
        push_neg at hguard
        have hp : s.isProcessing = false := by
          rcases Bool.eq_false_or_eq_true s.isProcessing with hb | hb
          · exact absurd hb hguard.2.2
          · exact hb
        simp [hp] at h
        simp [h]
  case complete =>
    split
    · exact h
    · rename_i hn
      rcases Bool.eq_false_or_eq_true s.isProcessing with hb | hb
      · rw [hb] at h
        simp at h
        simp [h]
      · rw [hb] at h
        simp at h
        exact absurd h hn

theorem rawStep_anchorNE (e : Event) (s : Sys)
    (h : ∀ a, s.swappedFrame = some a → a ≠ "") :
    ∀ a, (rawStep e s).swappedFrame = some a → a ≠ "" := by
  intro a ha
  cases e <;> unfold rawStep at ha <;> dsimp only at ha
  case toggleCamera =>
    repeat' split at ha
    all_goals exact h a (by simpa using ha)
  case toggleSwapButton =>
    repeat' split at ha
    all_goals exact h a (by simpa using ha)
  case selectIdentity =>
    repeat' split at ha
    all_goals exact h a (by simpa using ha)
  case removeIdentity => exact h a ha
  case upload => exact h a ha
  case tick =>
    repeat' split at ha
    all_goals exact h a (by simpa using ha)
  case complete result =>
    split at ha
    · exact h a ha
    · simp only at ha
      by_cases ht : truthyS result = true
      · rw [if_pos ht] at ha
        subst ha
        unfold truthyS at ht
        simp at ht
        exact ht
      · rw [if_neg ht] at ha
        exact h a ha

theorem rawStep_status (e : Event) (s : Sys) (h : statusInv s) : statusInv (rawStep e s) := by
  unfold statusInv at h ⊢
  cases e <;> unfold rawStep <;> dsimp only
  case toggleCamera =>
    repeat' split
    all_goals simp
  case toggleSwapButton =>
    split
    · exact h
    · repeat' split
      all_goals simp
  case selectIdentity =>
    repeat' split
    all_goals simpa using h
  case removeIdentity => simpa using h
  case upload => simpa using h
  case tick =>
    repeat' split
    all_goals simpa using h
  case complete =>
    repeat' split
    all_goals simpa using h

theorem handleFileUploadResult_ids (l : List Identity) (newId nm d : String)
    (o : Option String) :
    (handleFileUploadResult l newId nm d o).map Identity.id = l.map Identity.id ++ [newId] := by
  unfold handleFileUploadResult
  have hf : ∀ idty : Identity,
      (if idty.id = newId then { idty with embeddingStatus := .ready } else idty).id
        = idty.id := by
    intro idty
    split <;> rfl
  simp [List.map_map, Function.comp, hf]

theorem rawStep_active (e : Event) (s : Sys) (h : activeInv s) : activeInv (rawStep e s) := by
  unfold activeInv at h ⊢
  cases e <;> unfold rawStep <;> dsimp only
  case toggleCamera =>
    repeat' split
    all_goals simpa using h
  case toggleSwapButton =>
    repeat' split
    all_goals simpa using h
  case selectIdentity id =>
    split
    · rename_i hany
      intro a ha
      simp only at ha
      split at ha
      · simp at ha
      · have hid : id = a := by simpa using ha
        subst hid
        obtain ⟨i, hmem, hbeq⟩ := List.any_eq_true.mp hany
        have : i.id = id := by simpa using hbeq
        exact List.mem_map.mpr ⟨i, hmem, this⟩
    · exact h
  case removeIdentity id =>
    intro a ha
    split at ha
    · simp at ha
    · rename_i hne
      have hmem := h a ha
      obtain ⟨i, hmem2, hid⟩ := List.mem_map.mp hmem
      have hane : a ≠ id := by
        intro hcon
        subst hcon
        exact hne (by rw [ha])
      refine List.mem_map.mpr ⟨i, ?_, hid⟩
      refine List.mem_filter.mpr ⟨hmem2, ?_⟩
      rw [bne_iff_ne]
      rw [hid]
      exact hane
  case upload newId nm d o =>
    intro a ha
    rw [handleFileUploadResult_ids]
    exact List.mem_append_left _ (h a ha)
  case tick =>
    repeat' split
    all_goals simpa using h
  case complete =>
    repeat' split
    all_goals simpa using h

theorem Inv_step (env : String → String) (e : Event) (s : Sys) (h : Inv env s) :
    Inv env (step env e s) := by
  obtain ⟨hf, ha, hs, hact, _⟩ := h
  unfold step
  refine ⟨?_, ?_, ?_, ?_, b64Inv_react env _⟩
  · have hraw := rawStep_flight e s hf
    unfold flightInv at hraw ⊢
    rw [react_inFlight, react_isProcessing]
    exact hraw
  · intro a hEq
    have h2 := react_swappedFrame_some env _ a hEq
    have hne := rawStep_anchorNE e s (fun b hb2 => (ha b hb2).2) a h2.2
    exact ⟨h2.1, hne⟩
  · have hraw := rawStep_status e s hs
    unfold statusInv at hraw ⊢
    rw [react_cameraStatus]
    exact hraw
  · intro a hEq
    rw [react_activeId] at hEq
    have := rawStep_active e s hact a hEq
    rw [react_identities]
    exact this

theorem Inv_init (env : String → String) : Inv env initState := by
  refine ⟨rfl, ?_, by simp [statusInv, initState], ?_, ?_⟩
  · intro a ha
    simp [initState] at ha
  · intro a ha
    simp [initState] at ha
  · simp [b64Inv, initState, activeUrl, truthyS]

theorem Inv_foldl (env : String → String) (es : List Event) :
    ∀ s, Inv env s → Inv env (es.foldl (fun t e => step env e t) s) := by
  induction es with
  | nil => intro s h; exact h
  | cons e es ih =>
    intro s h
    exact ih _ (Inv_step env e s h)

theorem Inv_run (env : String → String) (es : List Event) : Inv env (run env es) :=
  Inv_foldl env es initState (Inv_init env)

theorem run_append (env : String → String) (es : List Event) (e : Event) :
    run env (es ++ [e]) = step env e (run env es) := by
  unfold run
  rw [List.foldl_append]
  rfl

/-! Concrete execution artifacts used by witnesses and counterexamples. -/

/-- A concrete canvas-encoding environment: wraps the source url in a JPEG
data-URI envelope, as canvas.toDataURL does. -/
def envJpeg : String → String := fun u => "data:image/jpeg;base64,[" ++ u ++ "]"

/-- The imageUrl of the first initial identity. -/
def unsplash1 : String :=
  "https://images.unsplash.com/photo-1560250097-0b93528c311a?auto=format&fit=crop&q=80&w=400&h=400"

/-- The imageUrl of the second initial identity. -/
def unsplash2 : String :=
  "https://images.unsplash.com/photo-1573496359142-b8d87734a5a2?auto=format&fit=crop&q=80&w=400&h=400"

/-- Select identity 1, power on, start swapping, run one successful tick:
ends Synced with anchor X and an idle loop. -/
def traceSynced : List Event :=
  [.selectIdentity "1", .toggleCamera true, .toggleSwapButton true,
   .tick "data:image/jpeg;base64,F1" true, .complete (some "data:image/png;base64,X")]

/-- The Synced trace followed by selecting the other identity. -/
def traceSwitch : List Event := traceSynced ++ [.selectIdentity "2"]

/-- The Synced trace followed by a dispatching tick: a busy Synced state. -/
def traceBusy : List Event := traceSynced ++ [.tick "data:image/jpeg;base64,F2" true]

/-! Claims. -/

/-- Claim C1: single-flight invariant.  Over every event trace — every
interleaving of timer ticks and in-flight completions — at most one swap
request is outstanding at any time; and a tick that fires while the busy
flag is set, or while the session is not swapping, or with no resolved
target payload, dispatches no request and is dropped, not queued: the
request log, the in-flight count and the busy flag are all unchanged. -/
theorem C1_single_flight :
    (∀ (env : String → String) (es : List Event), (run env es).inFlight ≤ 1) ∧
    (∀ (env : String → String) (s : Sys) (src : String) (ok : Bool),
      s.isProcessing = true ∨ s.cameraStatus ≠ CameraStatus.SWAPPING
          ∨ truthyS s.identityBase64 = false →
      (step env (.tick src ok) s).reqs = s.reqs ∧
      (step env (.tick src ok) s).inFlight = s.inFlight ∧
      (step env (.tick src ok) s).isProcessing = s.isProcessing) := by
  constructor
  · intro env es
    have hI := (Inv_run env es).1
    unfold flightInv at hI
    rw [hI]
    split <;> omega
  · intro env s src ok h
    have hcond : s.cameraStatus ≠ CameraStatus.SWAPPING ∨ truthyS s.identityBase64 = false
        ∨ s.isProcessing = true := by tauto
    have hraw : rawStep (Event.tick src ok) s = s := by
      simp only [rawStep]
      rw [if_pos hcond]
    unfold step
    rw [hraw]
    exact ⟨react_reqs env s, react_inFlight env s, react_isProcessing env s⟩

/-- Witness for C1: a tick fired while INACTIVE changes nothing. -/
theorem C1_single_flight_witness :
    (step envJpeg (.tick "f" true) initState).reqs = initState.reqs ∧
    (step envJpeg (.tick "f" true) initState).inFlight = initState.inFlight ∧
    (step envJpeg (.tick "f" true) initState).isProcessing = initState.isProcessing :=
  C1_single_flight.2 envJpeg initState "f" true (Or.inr (Or.inl (by decide)))

/-- Claim C2 counterexample: from the reachable Synced state with anchor X
and active identity 1, selecting the different listed identity 2 leaves the
session Swapping with the new identity active but the anchor still X — it is
not set to none — and the very next tick dispatches a request pairing the
old anchor X with the new target payload.  This refutes the claim that
changing the active identity while Synced discards the anchor and that no
request ever pairs the old anchor with the new target. -/
theorem C2_counterexample :
    (run envJpeg traceSwitch).cameraStatus = CameraStatus.SWAPPING ∧
    (run envJpeg traceSwitch).activeId = some "2" ∧
    (run envJpeg traceSwitch).swappedFrame = some "data:image/png;base64,X" ∧
    (run envJpeg traceSwitch).swappedFrame ≠ none ∧
    (step envJpeg (.tick "data:image/jpeg;base64,F2" true) (run envJpeg traceSwitch)).reqs =
      [{ source := "data:image/jpeg;base64,F1", target := urlToBase64 envJpeg unsplash1,
         anchor := none },
       { source := "data:image/jpeg;base64,F2", target := urlToBase64 envJpeg unsplash2,
         anchor := some "data:image/png;base64,X" }] := by
  decide

/-- Claim C2 amended: changing the active identity to a different listed
identity while the session is Swapping keeps the anchor unchanged (it is not
discarded, and the session stays Swapping with the new identity active); the
anchor is discarded only when the active identity is deactivated, that is
when the active identity url becomes falsy. -/
theorem C2_amended (env : String → String) (s : Sys) (id u : String)
    (hfind : (s.identities.find? (fun i => i.id == id)).map Identity.imageUrl = some u)
    (hsw : s.cameraStatus = CameraStatus.SWAPPING)
    (hne : s.activeId ≠ some id)
    (hu : u ≠ "")
    (hb : urlToBase64 env u ≠ "") :
    (step env (.selectIdentity id) s).swappedFrame = s.swappedFrame ∧
    (step env (.selectIdentity id) s).cameraStatus = CameraStatus.SWAPPING ∧
    (step env (.selectIdentity id) s).activeId = some id := by
  obtain ⟨i, hi, hiu⟩ := Option.map_eq_some'.mp hfind
  have hmem := List.mem_of_find?_eq_some hi
  have hp := List.find?_some hi
  have hany : s.identities.any (fun i => i.id == id) = true :=
    List.any_eq_true.mpr ⟨i, hmem, hp⟩
  have hraw : rawStep (Event.selectIdentity id) s
      = { s with activeId := some id } := by
    simp only [rawStep]
    rw [if_pos hany, if_neg hne]
  have hurl : activeUrl { s with activeId := some id } = some u := by
    unfold activeUrl
    simpa using hfind
  unfold step
  rw [hraw]
  unfold react reactIdentity
  rw [hurl]
  simp only [if_neg hu]
  unfold reactStatus
  rw [if_neg (by simp [hsw])]
  unfold reactSwapLoop
  rw [if_pos (by exact ⟨by simpa using hsw, by simp [truthyS, hb]⟩)]
  exact ⟨rfl, by simpa using hsw, rfl⟩

/-- Witness for the amended C2, at the concrete Synced state of the
counterexample trace. -/
theorem C2_amended_witness :
    (step envJpeg (.selectIdentity "2") (run envJpeg traceSynced)).swappedFrame
        = (run envJpeg traceSynced).swappedFrame ∧
    (step envJpeg (.selectIdentity "2") (run envJpeg traceSynced)).cameraStatus
        = CameraStatus.SWAPPING ∧
    (step envJpeg (.selectIdentity "2") (run envJpeg traceSynced)).activeId = some "2" :=
  C2_amended envJpeg (run envJpeg traceSynced) "2" unsplash2 (by decide) (by decide)
    (by decide) (by decide) (by decide)

/-- Claim C3: the anchor is non-null only while the session status is
Swapping; equivalently, every transition that leaves the Swapping status
clears the anchor within that same transition, so at every reachable state a
held swapped frame implies status SWAPPING. -/
theorem C3_anchor_only_while_swapping (env : String → String) (es : List Event) :
    ∀ a, (run env es).swappedFrame = some a →
      (run env es).cameraStatus = CameraStatus.SWAPPING :=
  fun a ha => ((Inv_run env es).2.1 a ha).1

/-- Witness for C3: the Synced trace holds anchor X, hence is SWAPPING. -/
theorem C3_anchor_only_while_swapping_witness :
    (run envJpeg traceSynced).cameraStatus = CameraStatus.SWAPPING :=
  C3_anchor_only_while_swapping envJpeg traceSynced "data:image/png;base64,X" (by decide)

/-- Claim C4: the persona toggle invoked while the session is Inactive or
with no identity selected leaves the session status unchanged (a no-op);
and over every trace, a step that enters Swapping does so from Active with
an identity selected. -/
theorem C4_swapping_gate :
    (∀ (env : String → String) (s : Sys) (ok : Bool),
        s.cameraStatus = CameraStatus.INACTIVE ∨ s.activeId = none →
        (step env (.toggleSwapButton ok) s).cameraStatus = s.cameraStatus) ∧
    (∀ (env : String → String) (es : List Event) (e : Event),
        (run env es).cameraStatus ≠ CameraStatus.SWAPPING →
        (run env (es ++ [e])).cameraStatus = CameraStatus.SWAPPING →
        (run env es).cameraStatus = CameraStatus.ACTIVE ∧
          (run env es).activeId.isSome = true) := by
  constructor
  · intro env s ok h
    have hg : s.cameraStatus = CameraStatus.INACTIVE ∨ truthyS s.activeId = false := by
      rcases h with h | h
      · exact Or.inl h
      · right
        rw [h]
        rfl
    have hraw : rawStep (Event.toggleSwapButton ok) s = s := by
      simp only [rawStep]
      rw [if_pos hg]
    unfold step
    rw [hraw, react_cameraStatus]
  · intro env es e h1 h2
    rw [run_append] at h2
    unfold step at h2
    rw [react_cameraStatus] at h2
    cases e <;> unfold rawStep at h2 <;> dsimp only at h2
    case toggleCamera =>
      repeat' split at h2
      all_goals simp_all
    case toggleSwapButton =>
      split at h2
      · exact absurd h2 h1
      · rename_i hg
        push_neg at hg
        obtain ⟨hgi, hgt⟩ := hg
        have hload : (run env es).cameraStatus ≠ CameraStatus.LOADING := (Inv_run env es).2.2.1
        constructor
        · cases hc : (run env es).cameraStatus
          · exact absurd hc hgi
          · exact absurd hc hload
          · rfl
          · exact absurd hc h1
        · cases ha : (run env es).activeId
          · rw [ha] at hgt
            exact absurd rfl hgt
          · rfl
    case selectIdentity =>
      repeat' split at h2
      all_goals simp_all
    case removeIdentity => simp_all
    case upload => simp_all
    case tick =>
      repeat' split at h2
      all_goals simp_all
    case complete =>
      repeat' split at h2
      all_goals simp_all

/-- Witness for C4: with identity 1 selected but the camera still INACTIVE,
the persona toggle leaves the status unchanged. -/
theorem C4_swapping_gate_witness :
    (step envJpeg (.toggleSwapButton true)
        (run envJpeg [.selectIdentity "1"])).cameraStatus
      = (run envJpeg [.selectIdentity "1"]).cameraStatus :=
  C4_swapping_gate.1 envJpeg (run envJpeg [.selectIdentity "1"]) true (Or.inl (by decide))

/-- Claim C5 counterexample: uploading a new identity while refineIdentity
fails (resolves null) still marks the entry ready — the refinement outcome is
discarded by handleFileUpload — so the embeddingStatus does not transition to
error.  This refutes the claim that refinement failure yields Error rather
than Ready. -/
theorem C5_counterexample :
    (handleFileUploadResult [] "7" "face" "data:image/png;base64,AAA" none).map
        (fun i => (i.id, i.embeddingStatus)) = [("7", EmbeddingStatus.ready)] ∧
    EmbeddingStatus.ready ≠ EmbeddingStatus.error := by
  decide

/-- Claim C5 amended: the refinement outcome is ignored — the upload result
is independent of it, the new identity always ends with status ready and
remains in the identity list (hence selectable), and the upload never
changes the session status (non-fatal to the session). -/
theorem C5_upload_marks_ready :
    (∀ (l : List Identity) (newId nm d : String) (o : Option String),
        handleFileUploadResult l newId nm d o = handleFileUploadResult l newId nm d none) ∧
    (∀ (l : List Identity) (newId nm d : String) (o : Option String),
        (∀ i ∈ l, i.id ≠ newId) →
        (handleFileUploadResult l newId nm d o).filter (fun i => i.id == newId)
          = [{ id := newId, name := nm, imageUrl := d,
               embeddingStatus := EmbeddingStatus.ready }]) ∧
    (∀ (env : String → String) (s : Sys) (newId nm d : String) (o : Option String),
        (step env (.upload newId nm d o) s).cameraStatus = s.cameraStatus) := by
  refine ⟨?_, ?_, ?_⟩
  · intro l newId nm d o
    rfl
  · intro l newId nm d o hfresh
    unfold handleFileUploadResult
    rw [List.map_append, List.filter_append]
    have h1 : (l.map (fun idty =>
        if idty.id = newId then { idty with embeddingStatus := EmbeddingStatus.ready }
        else idty)).filter (fun i => i.id == newId) = [] := by
      apply List.filter_eq_nil_iff.mpr
      intro a ha
      obtain ⟨i, hi, rfl⟩ := List.mem_map.mp ha
      have hne := hfresh i hi
      rw [if_neg hne]
      simp [hne]
    rw [h1]
    simp
  · intro env s newId nm d o
    unfold step
    rw [react_cameraStatus]
    rfl

/-- Witness for the amended C5: uploading identity 7 over the initial list
lands it in the list with status ready, refinement outcome null. -/
theorem C5_upload_marks_ready_witness :
    (handleFileUploadResult INITIAL_IDENTITIES "7" "face" "d" none).filter
        (fun i => i.id == "7")
      = [{ id := "7", name := "face", imageUrl := "d",
           embeddingStatus := EmbeddingStatus.ready }] :=
  C5_upload_marks_ready.2.1 INITIAL_IDENTITIES "7" "face" "d" none (by decide)

/-- Claim C6: atomicity of a failed tick.  From a busy Synced state (anchor
x, one request in flight, active identity resolving to a truthy payload), a
completion carrying no image leaves the anchor and the Swapping status
unchanged, clears the busy flag and the in-flight count, and the next tick
dispatches normally with the same anchor x. -/
theorem C6_failed_tick_atomic (env : String → String) (s : Sys) (x src u : String)
    (hsw : s.cameraStatus = CameraStatus.SWAPPING)
    (hflight : s.inFlight = 1)
    (hanchor : s.swappedFrame = some x)
    (hx : x ≠ "")
    (hurl : activeUrl s = some u)
    (hu : u ≠ "")
    (hb : urlToBase64 env u ≠ "") :
    (step env (.complete none) s).swappedFrame = some x ∧
    (step env (.complete none) s).cameraStatus = CameraStatus.SWAPPING ∧
    (step env (.complete none) s).isProcessing = false ∧
    (step env (.complete none) s).inFlight = 0 ∧
    (step env (.tick src true) (step env (.complete none) s)).reqs = s.reqs ++
      [{ source := src, target := urlToBase64 env u, anchor := some x }] := by
  have hn0 : ¬ s.inFlight = 0 := by
    rw [hflight]
    exact one_ne_zero
  have hraw : rawStep (Event.complete none) s
      = { s with inFlight := s.inFlight - 1, isProcessing := false } := by
    simp only [rawStep]
    rw [if_neg hn0]
    simp [truthyS]
  have hs1 : step env (.complete none) s
      = { s with inFlight := s.inFlight - 1, isProcessing := false,
                 identityBase64 := some (urlToBase64 env u) } := by
    unfold step
    rw [hraw]
    unfold react reactIdentity
    have hurl2 : activeUrl { s with inFlight := s.inFlight - 1, isProcessing := false }
        = some u := hurl
    rw [hurl2]
    simp only [if_neg hu]
    unfold reactStatus
    rw [if_neg (by simp [hsw])]
    unfold reactSwapLoop
    rw [if_pos ⟨hsw, by simp [truthyS, hb]⟩]
  refine ⟨?_, ?_, ?_, ?_, ?_⟩
  · rw [hs1]
    exact hanchor
  · rw [hs1]
    exact hsw
  · rw [hs1]
  · rw [hs1]
    simp [hflight]
  · rw [hs1]
    unfold step
    rw [react_reqs]
    simp only [rawStep]
    rw [if_neg (by simp [hsw, truthyS, hb])]
    rw [if_neg (by simp)]
    simp [jsOrUndefined, truthyS, hanchor, hx]

/-- Witness for C6: the busy Synced trace, completion with no image, then a
fresh tick carrying frame F3. -/
theorem C6_failed_tick_atomic_witness :
    (step envJpeg (.complete none) (run envJpeg traceBusy)).swappedFrame
        = some "data:image/png;base64,X" ∧
    (step envJpeg (.complete none) (run envJpeg traceBusy)).cameraStatus
        = CameraStatus.SWAPPING ∧
    (step envJpeg (.complete none) (run envJpeg traceBusy)).isProcessing = false ∧
    (step envJpeg (.complete none) (run envJpeg traceBusy)).inFlight = 0 ∧
    (step envJpeg (.tick "data:image/jpeg;base64,F3" true)
        (step envJpeg (.complete none) (run envJpeg traceBusy))).reqs
      = (run envJpeg traceBusy).reqs ++
        [{ source := "data:image/jpeg;base64,F3",
           target := urlToBase64 envJpeg unsplash1,
           anchor := some "data:image/png;base64,X" }] :=
  C6_failed_tick_atomic envJpeg (run envJpeg traceBusy) "data:image/png;base64,X"
    "data:image/jpeg;base64,F3" unsplash1 (by decide) (by decide) (by decide) (by decide)
    (by decide) (by decide) (by decide)

/-- Claim C7 counterexample: supplying an anchor whose stripped payload is
empty — the data URI data:image/png;base64, with empty image data, exactly
what the caller passes after a service response carrying empty inline data —
produces a request with no anchor part and the no-anchor instruction, even
though an anchor argument was supplied.  This refutes the framing rule as
worded (anchor part exactly when an anchor is supplied). -/
theorem C7_counterexample :
    performFaceSwapParts "a" "b" (some "data:image/png;base64,")
      ≠ specRequestFraming "a" "b" (some "data:image/png;base64,") ∧
    performFaceSwapParts "a" "b" (some "data:image/png;base64,")
      = [Part.inlineData "a" "image/jpeg", Part.inlineData "b" "image/jpeg",
         Part.text (swapInstruction false)] := by
  decide

/-- Claim C7 amended: every request built by the swap operation is the
stripped source payload first, then the stripped target payload, each tagged
image/jpeg, then the stripped anchor payload exactly when an anchor is
supplied whose stripped payload is non-empty, followed by a single
instruction block whose content varies only in that same condition. -/
theorem C7_request_framing (src tgt : String) (prev : Option String) :
    performFaceSwapParts src tgt prev = amendedRequestFraming src tgt prev := by
  unfold performFaceSwapParts amendedRequestFraming
  by_cases h : truthyS (prev.map stripEnvelope) = true
  · simp [h]
  · simp [h]

/-- Claim C8 counterexample: powering on from Inactive with the capture
acquisition failing still lands the session in ACTIVE with no stream — the
session status never passes through LOADING and acquisition failure is not
fatal to entering Active.  This refutes the claimed Inactive to Loading to
Active path and the claim that the session does not end up Active when
acquisition fails. -/
theorem C8_counterexample :
    (step envJpeg (.toggleCamera false) initState).cameraStatus = CameraStatus.ACTIVE ∧
    (step envJpeg (.toggleCamera false) initState).stream = false := by
  decide

/-- Claim C8 amended: the power toggle from Inactive moves the session
directly to Active regardless of the acquisition outcome (the stream handle
is set only on success), and no reachable state has status LOADING. -/
theorem C8_power_on (env : String → String) :
    (∀ (ok : Bool) (s : Sys), s.cameraStatus = CameraStatus.INACTIVE →
        (step env (.toggleCamera ok) s).cameraStatus = CameraStatus.ACTIVE) ∧
    (∀ es : List Event, (run env es).cameraStatus ≠ CameraStatus.LOADING) := by
  constructor
  · intro ok s h
    unfold step
    rw [react_cameraStatus]
    simp only [rawStep]
    rw [if_pos h]
    split <;> rfl
  · intro es
    exact (Inv_run env es).2.2.1

/-- Witness for the amended C8: powering on from the mounted state with a
successful acquisition lands in ACTIVE. -/
theorem C8_power_on_witness :
    (step envJpeg (.toggleCamera true) initState).cameraStatus = CameraStatus.ACTIVE :=
  (C8_power_on envJpeg).1 true initState (by decide)

/-- Claim C9: an input that is already an inline-encoded data URI is
returned byte-identical by urlToBase64 — the canvas re-encoding is never
consulted for it. -/
theorem C9_data_uri_unchanged (canvasEncode : String → String) (url : String)
    (h : jsStartsWith url "data:" = true) :
    urlToBase64 canvasEncode url = url := by
  simp [urlToBase64, h]

/-- Witness for C9: a concrete data URI round-trips unchanged. -/
theorem C9_data_uri_unchanged_witness :
    urlToBase64 envJpeg "data:image/png;base64,abc" = "data:image/png;base64,abc" :=
  C9_data_uri_unchanged envJpeg "data:image/png;base64,abc" (by decide)

/-- Claim C10: removal semantics.  Removing id deletes exactly the entries
with that id from the identity list; if that id was the active selection the
selection is cleared in the same step, and otherwise (including when the id
is not listed) the selection is unchanged; and over every trace the active
identity id always names a listed identity — never a removed one. -/
theorem C10_remove_semantics :
    (∀ (env : String → String) (id : String) (s : Sys),
        (step env (.removeIdentity id) s).identities
            = s.identities.filter (fun i => i.id != id) ∧
        (s.activeId = some id → (step env (.removeIdentity id) s).activeId = none) ∧
        (s.activeId ≠ some id → (step env (.removeIdentity id) s).activeId = s.activeId)) ∧
    (∀ (env : String → String) (es : List Event) (a : String),
        (run env es).activeId = some a →
        a ∈ (run env es).identities.map Identity.id) := by
  constructor
  · intro env id s
    refine ⟨?_, ?_, ?_⟩
    · unfold step
      rw [react_identities]
      rfl
    · intro h
      unfold step
      rw [react_activeId]
      simp only [rawStep]
      simp [h]
    · intro h
      unfold step
      rw [react_activeId]
      simp only [rawStep]
      simp [h]
  · intro env es a ha
    exact (Inv_run env es).2.2.2.1 a ha

/-- Witness for C10: removing the active identity 1 clears the selection. -/
theorem C10_remove_semantics_witness :
    (step envJpeg (.removeIdentity "1") (run envJpeg [.selectIdentity "1"])).activeId
      = none :=
  (C10_remove_semantics.1 envJpeg "1" (run envJpeg [.selectIdentity "1"])).2.1 (by decide)

end SasaCam
